import Mathlib

/-!
Verification of the Ticket record schema of the weAlist-Board kanban
service (src/services/kanban/app/models/ticket.py).

The source declares one SQLAlchemy model, `Ticket`, with columns
`title` (String(300), not null, indexed), `description` (Text, nullable),
`status` (Enum TicketStatus, default OPEN, not null, indexed),
`priority` (Enum Priority, default MEDIUM, not null, indexed),
`project_id` (PostgreSQL UUID, not null, indexed, no foreign key) and
`assignee_id` (PostgreSQL UUID, nullable, indexed, no foreign key),
plus an `id` and a debug string method.

We embed (1) the column declarations as data, and (2) the write
semantics those declarations induce through the ORM and the PostgreSQL
engine: a not-null column rejects an omitted value, String(300) rejects
values longer than 300 characters, an Enum column rejects values outside
the enumeration, and a UUID column rejects values that are not
syntactically valid UUIDs. No other check is declared anywhere in the
schema.
-/

namespace WeAlist

/-- Modelled from the spec: the TicketStatus enumeration lives in
app/models/enums.py, which is not among the visible sources. The spec
names its members as OPEN, IN_PROGRESS, DONE, and the source itself
references the member TicketStatus.OPEN as the column default. -/
inductive TicketStatus
  | OPEN
  | IN_PROGRESS
  | DONE
deriving DecidableEq

/-- Modelled from the spec: the Priority enumeration lives in
app/models/enums.py, which is not among the visible sources. The spec
names its members as LOW, MEDIUM, HIGH, and the source itself references
the member Priority.MEDIUM as the column default. -/
inductive Priority
  | LOW
  | MEDIUM
  | HIGH
deriving DecidableEq

/-- Parse a supplied enum payload string into a TicketStatus member, as
the Enum column type does on write. -/
def parseTicketStatus : String → Option TicketStatus
  | "OPEN" => some TicketStatus.OPEN
  | "IN_PROGRESS" => some TicketStatus.IN_PROGRESS
  | "DONE" => some TicketStatus.DONE
  | _ => none

/-- Parse a supplied enum payload string into a Priority member, as the
Enum column type does on write. -/
def parsePriority : String → Option Priority
  | "LOW" => some Priority.LOW
  | "MEDIUM" => some Priority.MEDIUM
  | "HIGH" => some Priority.HIGH
  | _ => none

/-- Hexadecimal digit test for UUID syntax. -/
def isHexDigit (c : Char) : Bool :=
  (decide (Char.ofNat 48 ≤ c) && decide (c ≤ Char.ofNat 57)) ||
  (decide (Char.ofNat 97 ≤ c) && decide (c ≤ Char.ofNat 102)) ||
  (decide (Char.ofNat 65 ≤ c) && decide (c ≤ Char.ofNat 70))

/-- Syntactic validity of a textual UUID, the check the PostgreSQL uuid
column type performs on write: 36 characters, hyphens at positions
8, 13, 18 and 23, hexadecimal digits everywhere else. -/
def validUUID (s : String) : Bool :=
  s.length == 36 &&
  (List.range 36).all (fun i =>
    let c := s.toList.getD i (Char.ofNat 32)
    if i == 8 || i == 13 || i == 18 || i == 23 then c == Char.ofNat 45
    else isHexDigit c)

/-- Synchronous write failure raised when a value violates a declared
column constraint. -/
structure ValidationError where
  field : String
  message : String
deriving DecidableEq

/-- A persisted ticket row: the columns declared by the Ticket model,
with the inherited primary key id. -/
structure Ticket where
  id : String
  title : String
  description : Option String
  status : TicketStatus
  priority : Priority
  project_id : String
  assignee_id : Option String
deriving DecidableEq

/-- A write payload: each declared column may be supplied or omitted. -/
structure TicketInput where
  title : Option String
  description : Option String
  status : Option String
  priority : Option String
  project_id : Option String
  assignee_id : Option String
deriving DecidableEq

/-- Length check induced by the declaration title = Column(String(300)). -/
def checkTitleVal (s : String) : Except ValidationError String :=
  if s.length > 300 then
    Except.error ⟨"title", "value too long for type character varying(300)"⟩
  else
    Except.ok s

/-- Title check on create: the column is nullable=False with no default,
so an omitted title is rejected; a supplied title is length-checked. -/
def checkTitle : Option String → Except ValidationError String
  | none => Except.error ⟨"title", "null value in column title violates not-null constraint"⟩
  | some s => checkTitleVal s

/-- Status check on create: the column has default=TicketStatus.OPEN, so
an omitted status becomes OPEN; a supplied status must be a member of
the enumeration. -/
def checkStatus : Option String → Except ValidationError TicketStatus
  | none => Except.ok TicketStatus.OPEN
  | some s =>
    match parseTicketStatus s with
    | some v => Except.ok v
    | none => Except.error ⟨"status", "invalid input value for enum ticketstatus"⟩

/-- Priority check on create: the column has default=Priority.MEDIUM, so
an omitted priority becomes MEDIUM; a supplied priority must be a member
of the enumeration. -/
def checkPriority : Option String → Except ValidationError Priority
  | none => Except.ok Priority.MEDIUM
  | some s =>
    match parsePriority s with
    | some v => Except.ok v
    | none => Except.error ⟨"priority", "invalid input value for enum priority"⟩

/-- UUID syntax check induced by the PG_UUID column type. -/
def checkUUIDVal (field s : String) : Except ValidationError String :=
  if validUUID s then Except.ok s
  else Except.error ⟨field, "invalid input syntax for type uuid"⟩

/-- Check for project_id on create: nullable=False with no default, so an
omitted value is rejected; a supplied value must be a syntactic UUID. -/
def checkProjectId : Option String → Except ValidationError String
  | none => Except.error ⟨"project_id", "null value in column project_id violates not-null constraint"⟩
  | some s => checkUUIDVal "project_id" s

/-- Check for assignee_id on create: nullable=True, so an omitted value
is stored as null; a supplied value must be a syntactic UUID. -/
def checkAssigneeId : Option String → Except ValidationError (Option String)
  | none => Except.ok none
  | some s =>
    match checkUUIDVal "assignee_id" s with
    | Except.ok v => Except.ok (some v)
    | Except.error e => Except.error e

/-- Create a ticket from a write payload: each declared column constraint
is checked and the declared defaults fill the omitted status and
priority. The row id is the generated primary key. -/
def create (id : String) (inp : TicketInput) : Except ValidationError Ticket :=
  match checkTitle inp.title with
  | Except.error e => Except.error e
  | Except.ok title =>
    match checkStatus inp.status with
    | Except.error e => Except.error e
    | Except.ok status =>
      match checkPriority inp.priority with
      | Except.error e => Except.error e
      | Except.ok priority =>
        match checkProjectId inp.project_id with
        | Except.error e => Except.error e
        | Except.ok pid =>
          match checkAssigneeId inp.assignee_id with
          | Except.error e => Except.error e
          | Except.ok aid =>
            Except.ok ⟨id, title, inp.description, status, priority, pid, aid⟩

/-- Title check on update: an omitted title keeps the stored value, a
supplied title is length-checked as on create. -/
def checkTitleUpd (old : String) : Option String → Except ValidationError String
  | none => Except.ok old
  | some s => checkTitleVal s

/-- Status check on update: an omitted status keeps the stored value, a
supplied status must be a member of the enumeration. -/
def checkStatusUpd (old : TicketStatus) : Option String → Except ValidationError TicketStatus
  | none => Except.ok old
  | some s => checkStatus (some s)

/-- Priority check on update: an omitted priority keeps the stored value,
a supplied priority must be a member of the enumeration. -/
def checkPriorityUpd (old : Priority) : Option String → Except ValidationError Priority
  | none => Except.ok old
  | some s => checkPriority (some s)

/-- Check for project_id on update: an omitted value keeps the stored
value, a supplied value must be a syntactic UUID. -/
def checkProjectIdUpd (old : String) : Option String → Except ValidationError String
  | none => Except.ok old
  | some s => checkUUIDVal "project_id" s

/-- Check for assignee_id on update: an omitted value keeps the stored
value, a supplied value must be a syntactic UUID. -/
def checkAssigneeIdUpd (old : Option String) : Option String → Except ValidationError (Option String)
  | none => Except.ok old
  | some s =>
    match checkUUIDVal "assignee_id" s with
    | Except.ok v => Except.ok (some v)
    | Except.error e => Except.error e

/-- Update a stored ticket with a partial payload: an omitted field keeps
its stored value, a supplied field passes the same declared column
checks as on create. -/
def update (t : Ticket) (inp : TicketInput) : Except ValidationError Ticket :=
  match checkTitleUpd t.title inp.title with
  | Except.error e => Except.error e
  | Except.ok title =>
    match checkStatusUpd t.status inp.status with
    | Except.error e => Except.error e
    | Except.ok status =>
      match checkPriorityUpd t.priority inp.priority with
      | Except.error e => Except.error e
      | Except.ok priority =>
        match checkProjectIdUpd t.project_id inp.project_id with
        | Except.error e => Except.error e
        | Except.ok pid =>
          match checkAssigneeIdUpd t.assignee_id inp.assignee_id with
          | Except.error e => Except.error e
          | Except.ok aid =>
            Except.ok ⟨t.id, title,
                       (match inp.description with
                        | none => t.description
                        | some d => some d),
                       status, priority, pid, aid⟩

/-- Debug string of a ticket, translated from the source method that
interpolates the id and the title into a fixed template. -/
def Ticket.reprString (t : Ticket) : String :=
  "<Ticket(id=" ++ t.id ++ ", title=" ++ t.title ++ ")>"

/-- Column type as declared in the model. -/
inductive ColType
  | stringT (maxLen : Nat)
  | textT
  | enumTicketStatus
  | enumPriority
  | pgUUID
deriving DecidableEq

/-- One column declaration of the Ticket model: its name, type,
nullability, index flag, whether a default is declared, and the target
of a ForeignKey constraint when one is declared. -/
structure ColumnDecl where
  name : String
  type : ColType
  nullable : Bool
  index : Bool
  hasDefault : Bool
  foreignKey : Option String
deriving DecidableEq

/-- Column declarations of the tickets table, read off the source:
each Column(...) call of the Ticket model. No Column carries a
ForeignKey argument. -/
def ticketColumns : List ColumnDecl :=
  [⟨"title", ColType.stringT 300, false, true, false, none⟩,
   ⟨"description", ColType.textT, true, false, false, none⟩,
   ⟨"status", ColType.enumTicketStatus, false, true, true, none⟩,
   ⟨"priority", ColType.enumPriority, false, true, true, none⟩,
   ⟨"project_id", ColType.pgUUID, false, true, false, none⟩,
   ⟨"assignee_id", ColType.pgUUID, true, true, false, none⟩]

/-- Whether the declared column of the given name is indexed. -/
def colIndexed (n : String) : Bool :=
  match ticketColumns.find? (fun c => c.name == n) with
  | some c => c.index
  | none => false

/-- A declared foreign-key constraint with cascade behaviour, as a
relational engine would record it. The Ticket model declares none. -/
structure FKDecl where
  column : String
  refTable : String
  onDeleteCascade : Bool
deriving DecidableEq

/-- Foreign keys declared by the Ticket model: the source declares no
ForeignKey on any column (the comment on project_id states the no-FK
choice explicitly). -/
def ticketForeignKeys : List FKDecl := []

/-- Value a ticket row holds in the column of the given name, for the
two external-identifier columns. -/
def ticketColRef (column : String) (t : Ticket) : Option String :=
  if column == "project_id" then some t.project_id
  else if column == "assignee_id" then t.assignee_id
  else none

/-- Effect on the tickets table of deleting row deletedId of an external
table: a relational engine removes a referencing ticket row only through
a declared cascading foreign key on the referencing column. -/
def cascadeOnExternalDelete (fks : List FKDecl) (table deletedId : String)
    (rows : List Ticket) : List Ticket :=
  rows.filter (fun t =>
    ! fks.any (fun fk =>
      fk.onDeleteCascade && fk.refTable == table &&
      ticketColRef fk.column t == some deletedId))

/-- Concrete project identifier used in the worked examples (P1). -/
def P1 : String := "11111111-1111-1111-1111-111111111111"

/-- Concrete generated row identifier used in the worked examples. -/
def tid0 : String := "22222222-2222-2222-2222-222222222222"

/-- Inversion of a successful create: every declared column check passed
and the stored row is built from the checked values. -/
theorem create_ok_inv (id : String) (inp : TicketInput) (t : Ticket)
    (h : create id inp = Except.ok t) :
    checkTitle inp.title = Except.ok t.title ∧
    checkStatus inp.status = Except.ok t.status ∧
    checkPriority inp.priority = Except.ok t.priority ∧
    checkProjectId inp.project_id = Except.ok t.project_id ∧
    checkAssigneeId inp.assignee_id = Except.ok t.assignee_id ∧
    t.id = id ∧ t.description = inp.description := by
  unfold create at h
  cases h1 : checkTitle inp.title <;> rw [h1] at h
  case error e => simp at h
  case ok v1 =>
  cases h2 : checkStatus inp.status <;> rw [h2] at h
  case error e => simp at h
  case ok v2 =>
  cases h3 : checkPriority inp.priority <;> rw [h3] at h
  case error e => simp at h
  case ok v3 =>
  cases h4 : checkProjectId inp.project_id <;> rw [h4] at h
  case error e => simp at h
  case ok v4 =>
  cases h5 : checkAssigneeId inp.assignee_id <;> rw [h5] at h
  case error e => simp at h
  case ok v5 =>
  simp only [Except.ok.injEq] at h
  subst h
  exact ⟨rfl, rfl, rfl, rfl, rfl, rfl, rfl⟩

/-- Inversion of a successful update: every declared column check passed
and the stored row is built from the checked values. -/
theorem update_ok_inv (t : Ticket) (inp : TicketInput) (t2 : Ticket)
    (h : update t inp = Except.ok t2) :
    checkTitleUpd t.title inp.title = Except.ok t2.title ∧
    checkStatusUpd t.status inp.status = Except.ok t2.status ∧
    checkPriorityUpd t.priority inp.priority = Except.ok t2.priority ∧
    checkProjectIdUpd t.project_id inp.project_id = Except.ok t2.project_id ∧
    checkAssigneeIdUpd t.assignee_id inp.assignee_id = Except.ok t2.assignee_id ∧
    t2.id = t.id := by
  unfold update at h
  cases h1 : checkTitleUpd t.title inp.title <;> rw [h1] at h
  case error e => simp at h
  case ok v1 =>
  cases h2 : checkStatusUpd t.status inp.status <;> rw [h2] at h
  case error e => simp at h
  case ok v2 =>
  cases h3 : checkPriorityUpd t.priority inp.priority <;> rw [h3] at h
  case error e => simp at h
  case ok v3 =>
  cases h4 : checkProjectIdUpd t.project_id inp.project_id <;> rw [h4] at h
  case error e => simp at h
  case ok v4 =>
  cases h5 : checkAssigneeIdUpd t.assignee_id inp.assignee_id <;> rw [h5] at h
  case error e => simp at h
  case ok v5 =>
  simp only [Except.ok.injEq] at h
  subst h
  exact ⟨rfl, rfl, rfl, rfl, rfl, rfl⟩

/-- A create fails as soon as any declared column check fails. -/
theorem create_fails_of_check (id : String) (inp : TicketInput)
    (h : (∃ e, checkTitle inp.title = Except.error e) ∨
         (∃ e, checkStatus inp.status = Except.error e) ∨
         (∃ e, checkPriority inp.priority = Except.error e) ∨
         (∃ e, checkProjectId inp.project_id = Except.error e) ∨
         (∃ e, checkAssigneeId inp.assignee_id = Except.error e)) :
    ∃ e, create id inp = Except.error e := by
  unfold create
  cases h1 : checkTitle inp.title
  case error e => exact ⟨e, rfl⟩
  case ok v1 =>
  cases h2 : checkStatus inp.status
  case error e => exact ⟨e, rfl⟩
  case ok v2 =>
  cases h3 : checkPriority inp.priority
  case error e => exact ⟨e, rfl⟩
  case ok v3 =>
  cases h4 : checkProjectId inp.project_id
  case error e => exact ⟨e, rfl⟩
  case ok v4 =>
  cases h5 : checkAssigneeId inp.assignee_id
  case error e => exact ⟨e, rfl⟩
  case ok v5 =>
  rcases h with ⟨e, he⟩ | ⟨e, he⟩ | ⟨e, he⟩ | ⟨e, he⟩ | ⟨e, he⟩ <;> simp_all

/-- An update fails as soon as any declared column check fails. -/
theorem update_fails_of_check (t : Ticket) (inp : TicketInput)
    (h : (∃ e, checkTitleUpd t.title inp.title = Except.error e) ∨
         (∃ e, checkStatusUpd t.status inp.status = Except.error e) ∨
         (∃ e, checkPriorityUpd t.priority inp.priority = Except.error e) ∨
         (∃ e, checkProjectIdUpd t.project_id inp.project_id = Except.error e) ∨
         (∃ e, checkAssigneeIdUpd t.assignee_id inp.assignee_id = Except.error e)) :
    ∃ e, update t inp = Except.error e := by
  unfold update
  cases h1 : checkTitleUpd t.title inp.title
  case error e => exact ⟨e, rfl⟩
  case ok v1 =>
  cases h2 : checkStatusUpd t.status inp.status
  case error e => exact ⟨e, rfl⟩
  case ok v2 =>
  cases h3 : checkPriorityUpd t.priority inp.priority
  case error e => exact ⟨e, rfl⟩
  case ok v3 =>
  cases h4 : checkProjectIdUpd t.project_id inp.project_id
  case error e => exact ⟨e, rfl⟩
  case ok v4 =>
  cases h5 : checkAssigneeIdUpd t.assignee_id inp.assignee_id
  case error e => exact ⟨e, rfl⟩
  case ok v5 =>
  rcases h with ⟨e, he⟩ | ⟨e, he⟩ | ⟨e, he⟩ | ⟨e, he⟩ | ⟨e, he⟩ <;> simp_all

/-- A create whose declared column checks all pass stores exactly the
checked values, the generated id and the supplied description. -/
theorem create_ok_intro (id : String) (inp : TicketInput)
    (title : String) (status : TicketStatus) (priority : Priority)
    (pid : String) (aid : Option String)
    (h1 : checkTitle inp.title = Except.ok title)
    (h2 : checkStatus inp.status = Except.ok status)
    (h3 : checkPriority inp.priority = Except.ok priority)
    (h4 : checkProjectId inp.project_id = Except.ok pid)
    (h5 : checkAssigneeId inp.assignee_id = Except.ok aid) :
    create id inp = Except.ok ⟨id, title, inp.description, status, priority, pid, aid⟩ := by
  unfold create
  rw [h1, h2, h3, h4, h5]

/-- A title value passes the String(300) check exactly when it is at
most 300 characters, and is then stored verbatim. -/
theorem checkTitleVal_ok_inv (s v : String) (h : checkTitleVal s = Except.ok v) :
    v = s ∧ s.length ≤ 300 := by
  unfold checkTitleVal at h
  split at h
  case isTrue hc => simp at h
  case isFalse hc =>
    simp only [Except.ok.injEq] at h
    exact ⟨h.symm, by omega⟩

/-- A supplied status value passes the Enum check exactly when it parses
to the member that is stored. -/
theorem checkStatus_some_inv (s : String) (v : TicketStatus)
    (h : checkStatus (some s) = Except.ok v) : parseTicketStatus s = some v := by
  have h2 : (match parseTicketStatus s with
             | some w => Except.ok w
             | none => (Except.error ⟨"status", "invalid input value for enum ticketstatus"⟩ :
                 Except ValidationError TicketStatus)) = Except.ok v := h
  cases hp : parseTicketStatus s <;> rw [hp] at h2
  · simp at h2
  · simp only [Except.ok.injEq] at h2
    rw [h2]

/-- A supplied priority value passes the Enum check exactly when it
parses to the member that is stored. -/
theorem checkPriority_some_inv (s : String) (v : Priority)
    (h : checkPriority (some s) = Except.ok v) : parsePriority s = some v := by
  have h2 : (match parsePriority s with
             | some w => Except.ok w
             | none => (Except.error ⟨"priority", "invalid input value for enum priority"⟩ :
                 Except ValidationError Priority)) = Except.ok v := h
  cases hp : parsePriority s <;> rw [hp] at h2
  · simp at h2
  · simp only [Except.ok.injEq] at h2
    rw [h2]

/-- A UUID value passes the uuid column check exactly when it is
syntactically valid, and is then stored verbatim. -/
theorem checkUUIDVal_ok_inv (f s v : String) (h : checkUUIDVal f s = Except.ok v) :
    v = s ∧ validUUID s = true := by
  unfold checkUUIDVal at h
  split at h
  case isTrue hc =>
    simp only [Except.ok.injEq] at h
    exact ⟨h.symm, hc⟩
  case isFalse hc => simp at h

/-- C1: a create that omits status and priority stores a row with status
OPEN and priority MEDIUM (the declared column defaults), and when
assignee_id is also omitted the stored assignee_id is null. -/
theorem C1_create_defaults (id : String) (inp : TicketInput) (t : Ticket)
    (hs : inp.status = none) (hp : inp.priority = none)
    (hok : create id inp = Except.ok t) :
    t.status = TicketStatus.OPEN ∧ t.priority = Priority.MEDIUM ∧
    (inp.assignee_id = none → t.assignee_id = none) := by
  obtain ⟨-, h2, h3, -, h5, -, -⟩ := create_ok_inv id inp t hok
  rw [hs] at h2
  rw [hp] at h3
  simp only [checkStatus, Except.ok.injEq] at h2
  simp only [checkPriority, Except.ok.injEq] at h3
  refine ⟨h2.symm, h3.symm, ?_⟩
  intro ha
  rw [ha] at h5
  simp only [checkAssigneeId, Except.ok.injEq] at h5
  exact h5.symm

/-- Witness for C1 at the worked example of the spec: create with title
Fix login bug and project_id P1, everything else omitted. -/
theorem C1_create_defaults_witness :
    ((⟨some "Fix login bug", none, none, none, some P1, none⟩ : TicketInput).status = none) ∧
    ((⟨some "Fix login bug", none, none, none, some P1, none⟩ : TicketInput).priority = none) ∧
    (create tid0 ⟨some "Fix login bug", none, none, none, some P1, none⟩ =
      Except.ok ⟨tid0, "Fix login bug", none, TicketStatus.OPEN, Priority.MEDIUM, P1, none⟩) ∧
    ((⟨tid0, "Fix login bug", none, TicketStatus.OPEN, Priority.MEDIUM, P1, none⟩ : Ticket).status
        = TicketStatus.OPEN ∧
     (⟨tid0, "Fix login bug", none, TicketStatus.OPEN, Priority.MEDIUM, P1, none⟩ : Ticket).priority
        = Priority.MEDIUM ∧
     ((⟨some "Fix login bug", none, none, none, some P1, none⟩ : TicketInput).assignee_id = none →
      (⟨tid0, "Fix login bug", none, TicketStatus.OPEN, Priority.MEDIUM, P1, none⟩ : Ticket).assignee_id
        = none)) :=
  ⟨rfl, rfl, rfl,
   C1_create_defaults tid0 ⟨some "Fix login bug", none, none, none, some P1, none⟩
     ⟨tid0, "Fix login bug", none, TicketStatus.OPEN, Priority.MEDIUM, P1, none⟩ rfl rfl rfl⟩

/-- C2: on create and on update, a supplied title longer than 300
characters makes the write fail with a ValidationError, and a title of
at most 300 characters passes the title constraint (shown by a create
family that succeeds for every such title). -/
theorem C2_title_length :
    (∀ (id : String) (inp : TicketInput) (s : String),
        inp.title = some s → 300 < s.length →
        ∃ e, create id inp = Except.error e) ∧
    (∀ (t : Ticket) (inp : TicketInput) (s : String),
        inp.title = some s → 300 < s.length →
        ∃ e, update t inp = Except.error e) ∧
    (∀ s : String, s.length ≤ 300 →
        create tid0 ⟨some s, none, none, none, some P1, none⟩ =
          Except.ok ⟨tid0, s, none, TicketStatus.OPEN, Priority.MEDIUM, P1, none⟩) := by
  refine ⟨?_, ?_, ?_⟩
  · intro id inp s hs hlen
    apply create_fails_of_check
    left
    refine ⟨⟨"title", "value too long for type character varying(300)"⟩, ?_⟩
    rw [hs]
    show checkTitleVal s = _
    unfold checkTitleVal
    rw [if_pos (by omega)]
  · intro t inp s hs hlen
    apply update_fails_of_check
    left
    refine ⟨⟨"title", "value too long for type character varying(300)"⟩, ?_⟩
    rw [hs]
    show checkTitleVal s = _
    unfold checkTitleVal
    rw [if_pos (by omega)]
  · intro s hlen
    have h1 : checkTitle (some s) = Except.ok s := by
      show checkTitleVal s = _
      unfold checkTitleVal
      rw [if_neg (by omega)]
    exact create_ok_intro tid0 ⟨some s, none, none, none, some P1, none⟩
      s TicketStatus.OPEN Priority.MEDIUM P1 none h1 rfl rfl rfl rfl

set_option maxRecDepth 8000 in
/-- Witness for C2: a 301-character title is rejected on create and on
update, and a 13-character title passes the length constraint. -/
theorem C2_title_length_witness :
    (300 < (String.mk (List.replicate 301 (Char.ofNat 120))).length) ∧
    (∃ e, create tid0
        ⟨some (String.mk (List.replicate 301 (Char.ofNat 120))), none, none, none, some P1, none⟩ =
      Except.error e) ∧
    (∃ e, update ⟨tid0, "old", none, TicketStatus.OPEN, Priority.MEDIUM, P1, none⟩
        ⟨some (String.mk (List.replicate 301 (Char.ofNat 120))), none, none, none, none, none⟩ =
      Except.error e) ∧
    (create tid0 ⟨some "Fix login bug", none, none, none, some P1, none⟩ =
      Except.ok ⟨tid0, "Fix login bug", none, TicketStatus.OPEN, Priority.MEDIUM, P1, none⟩) :=
  ⟨by decide,
   C2_title_length.1 tid0 _ _ rfl (by decide),
   C2_title_length.2.1 _ _ _ rfl (by decide),
   C2_title_length.2.2 "Fix login bug" (by decide)⟩

/-- C3 counterexample: the declared schema puts only a not-null and a
length-300 constraint on title, so a create supplying the empty string
as title succeeds and stores a ticket whose title is empty. -/
theorem C3_counterexample_empty_title :
    create tid0 ⟨some "", none, none, none, some P1, none⟩ =
      Except.ok ⟨tid0, "", none, TicketStatus.OPEN, Priority.MEDIUM, P1, none⟩ ∧
    (⟨tid0, "", none, TicketStatus.OPEN, Priority.MEDIUM, P1, none⟩ : Ticket).title = "" :=
  ⟨rfl, rfl⟩

/-- C3 as amended: every stored title comes from a supplied value (never
from an omitted one) and is at most 300 characters, on create and
through update; the empty string is not excluded. -/
theorem C3_title_present_and_bounded :
    (∀ (id : String) (inp : TicketInput) (t : Ticket),
        create id inp = Except.ok t →
        inp.title = some t.title ∧ t.title.length ≤ 300) ∧
    (∀ (t : Ticket) (inp : TicketInput) (t2 : Ticket),
        update t inp = Except.ok t2 → t.title.length ≤ 300 →
        t2.title.length ≤ 300) := by
  constructor
  · intro id inp t hok
    obtain ⟨h1, -, -, -, -, -, -⟩ := create_ok_inv id inp t hok
    cases ht : inp.title with
    | none =>
      rw [ht] at h1
      exact absurd h1 (by simp [checkTitle])
    | some s =>
      rw [ht] at h1
      obtain ⟨hv, hlen⟩ := checkTitleVal_ok_inv s t.title h1
      rw [hv]
      exact ⟨rfl, hlen⟩
  · intro t inp t2 hok hold
    obtain ⟨h1, -, -, -, -, -⟩ := update_ok_inv t inp t2 hok
    cases ht : inp.title with
    | none =>
      rw [ht] at h1
      simp only [checkTitleUpd, Except.ok.injEq] at h1
      rw [← h1]
      exact hold
    | some s =>
      rw [ht] at h1
      obtain ⟨hv, hlen⟩ := checkTitleVal_ok_inv s t2.title h1
      rw [hv]
      exact hlen

/-- Witness for C3 as amended, at the worked example create and at an
update that keeps the stored title. -/
theorem C3_title_present_and_bounded_witness :
    (create tid0 ⟨some "Fix login bug", none, none, none, some P1, none⟩ =
      Except.ok ⟨tid0, "Fix login bug", none, TicketStatus.OPEN, Priority.MEDIUM, P1, none⟩) ∧
    ((⟨some "Fix login bug", none, none, none, some P1, none⟩ : TicketInput).title =
        some (⟨tid0, "Fix login bug", none, TicketStatus.OPEN, Priority.MEDIUM, P1, none⟩ : Ticket).title ∧
      (⟨tid0, "Fix login bug", none, TicketStatus.OPEN, Priority.MEDIUM, P1, none⟩ : Ticket).title.length
        ≤ 300) :=
  ⟨rfl, C3_title_present_and_bounded.1 tid0 _ _ rfl⟩

/-- C4: supplying a status or priority value outside its enumeration
makes create and update fail with a ValidationError, and a successful
create stores for each supplied enum payload exactly the member it
parses to, so stored values are always enumeration members. -/
theorem C4_enum_membership :
    (∀ (id : String) (inp : TicketInput) (s : String),
        inp.status = some s → parseTicketStatus s = none →
        ∃ e, create id inp = Except.error e) ∧
    (∀ (id : String) (inp : TicketInput) (s : String),
        inp.priority = some s → parsePriority s = none →
        ∃ e, create id inp = Except.error e) ∧
    (∀ (t : Ticket) (inp : TicketInput) (s : String),
        inp.status = some s → parseTicketStatus s = none →
        ∃ e, update t inp = Except.error e) ∧
    (∀ (t : Ticket) (inp : TicketInput) (s : String),
        inp.priority = some s → parsePriority s = none →
        ∃ e, update t inp = Except.error e) ∧
    (∀ (id : String) (inp : TicketInput) (t : Ticket),
        create id inp = Except.ok t →
        (∀ s, inp.status = some s → parseTicketStatus s = some t.status) ∧
        (∀ s, inp.priority = some s → parsePriority s = some t.priority)) := by
  refine ⟨?_, ?_, ?_, ?_, ?_⟩
  · intro id inp s hs hp
    apply create_fails_of_check
    right; left
    refine ⟨⟨"status", "invalid input value for enum ticketstatus"⟩, ?_⟩
    rw [hs]
    simp [checkStatus, hp]
  · intro id inp s hs hp
    apply create_fails_of_check
    right; right; left
    refine ⟨⟨"priority", "invalid input value for enum priority"⟩, ?_⟩
    rw [hs]
    simp [checkPriority, hp]
  · intro t inp s hs hp
    apply update_fails_of_check
    right; left
    refine ⟨⟨"status", "invalid input value for enum ticketstatus"⟩, ?_⟩
    rw [hs]
    show checkStatus (some s) = _
    simp [checkStatus, hp]
  · intro t inp s hs hp
    apply update_fails_of_check
    right; right; left
    refine ⟨⟨"priority", "invalid input value for enum priority"⟩, ?_⟩
    rw [hs]
    show checkPriority (some s) = _
    simp [checkPriority, hp]
  · intro id inp t hok
    obtain ⟨-, h2, h3, -, -, -, -⟩ := create_ok_inv id inp t hok
    constructor
    · intro s hs
      rw [hs] at h2
      exact checkStatus_some_inv s t.status h2
    · intro s hs
      rw [hs] at h3
      exact checkPriority_some_inv s t.priority h3

/-- Witness for C4: the out-of-set payloads BLOCKED and URGENT are
rejected on create and on update, and the worked-example create stores
an enumeration member for the supplied payload DONE. -/
theorem C4_enum_membership_witness :
    (parseTicketStatus "BLOCKED" = none) ∧
    (∃ e, create tid0 ⟨some "Fix login bug", none, some "BLOCKED", none, some P1, none⟩ =
      Except.error e) ∧
    (∃ e, create tid0 ⟨some "Fix login bug", none, none, some "URGENT", some P1, none⟩ =
      Except.error e) ∧
    (∃ e, update ⟨tid0, "old", none, TicketStatus.OPEN, Priority.MEDIUM, P1, none⟩
        ⟨none, none, some "BLOCKED", none, none, none⟩ = Except.error e) ∧
    (∃ e, update ⟨tid0, "old", none, TicketStatus.OPEN, Priority.MEDIUM, P1, none⟩
        ⟨none, none, none, some "URGENT", none, none⟩ = Except.error e) ∧
    ((∀ s, (⟨some "Fix login bug", none, some "DONE", none, some P1, none⟩ : TicketInput).status = some s →
        parseTicketStatus s =
          some (⟨tid0, "Fix login bug", none, TicketStatus.DONE, Priority.MEDIUM, P1, none⟩ : Ticket).status) ∧
     (∀ s, (⟨some "Fix login bug", none, some "DONE", none, some P1, none⟩ : TicketInput).priority = some s →
        parsePriority s =
          some (⟨tid0, "Fix login bug", none, TicketStatus.DONE, Priority.MEDIUM, P1, none⟩ : Ticket).priority)) :=
  ⟨rfl,
   C4_enum_membership.1 tid0 _ "BLOCKED" rfl rfl,
   C4_enum_membership.2.1 tid0 _ "URGENT" rfl rfl,
   C4_enum_membership.2.2.1 _ _ "BLOCKED" rfl rfl,
   C4_enum_membership.2.2.2.1 _ _ "URGENT" rfl rfl,
   C4_enum_membership.2.2.2.2 tid0 _ _ rfl⟩

/-- C5: project_id is required on create: an omitted (or null) value is
rejected with a ValidationError, and every successfully created row
stores exactly the supplied project_id, so the field is always
present. -/
theorem C5_project_id_required :
    (∀ (id : String) (inp : TicketInput), inp.project_id = none →
        ∃ e, create id inp = Except.error e) ∧
    (∀ (id : String) (inp : TicketInput) (t : Ticket),
        create id inp = Except.ok t → inp.project_id = some t.project_id) := by
  constructor
  · intro id inp hp
    apply create_fails_of_check
    right; right; right; left
    refine ⟨⟨"project_id", "null value in column project_id violates not-null constraint"⟩, ?_⟩
    rw [hp]
    rfl
  · intro id inp t hok
    obtain ⟨-, -, -, h4, -, -, -⟩ := create_ok_inv id inp t hok
    cases hp : inp.project_id with
    | none =>
      rw [hp] at h4
      exact absurd h4 (by simp [checkProjectId])
    | some s =>
      rw [hp] at h4
      obtain ⟨hv, -⟩ := checkUUIDVal_ok_inv "project_id" s t.project_id h4
      rw [hv]

/-- Witness for C5: omitting project_id fails, and the worked-example
create stores the supplied project identifier P1. -/
theorem C5_project_id_required_witness :
    ((⟨some "Fix login bug", none, none, none, none, none⟩ : TicketInput).project_id = none) ∧
    (∃ e, create tid0 ⟨some "Fix login bug", none, none, none, none, none⟩ = Except.error e) ∧
    ((⟨some "Fix login bug", none, none, none, some P1, none⟩ : TicketInput).project_id =
      some (⟨tid0, "Fix login bug", none, TicketStatus.OPEN, Priority.MEDIUM, P1, none⟩ : Ticket).project_id) :=
  ⟨rfl,
   C5_project_id_required.1 tid0 _ rfl,
   C5_project_id_required.2 tid0 _ _ rfl⟩

/-- C6: assignee_id may be omitted and is then stored as null, and any
supplied syntactically valid identifier is accepted and stored verbatim,
with no check against any Member-service user table: acceptance is
uniform over all valid identifiers. -/
theorem C6_assignee_optional_unchecked :
    (∀ (id : String) (inp : TicketInput) (t : Ticket),
        create id inp = Except.ok t → inp.assignee_id = none →
        t.assignee_id = none) ∧
    (∀ v : String, validUUID v = true →
        create tid0 ⟨some "Fix login bug", none, none, none, some P1, some v⟩ =
          Except.ok ⟨tid0, "Fix login bug", none, TicketStatus.OPEN, Priority.MEDIUM, P1, some v⟩) := by
  constructor
  · intro id inp t hok ha
    obtain ⟨-, -, -, -, h5, -, -⟩ := create_ok_inv id inp t hok
    rw [ha] at h5
    simp only [checkAssigneeId, Except.ok.injEq] at h5
    exact h5.symm
  · intro v hv
    have h5 : checkAssigneeId (some v) = Except.ok (some v) := by
      show (match checkUUIDVal "assignee_id" v with
            | Except.ok w => Except.ok (some w)
            | Except.error e => Except.error e) = _
      unfold checkUUIDVal
      rw [if_pos hv]
    exact create_ok_intro tid0 ⟨some "Fix login bug", none, none, none, some P1, some v⟩
      "Fix login bug" TicketStatus.OPEN Priority.MEDIUM P1 (some v) rfl rfl rfl rfl h5

/-- Witness for C6: the omitted case at the worked example, and a
concrete identifier that exists in no table anywhere yet is accepted. -/
theorem C6_assignee_optional_unchecked_witness :
    (create tid0 ⟨some "Fix login bug", none, none, none, some P1, none⟩ =
      Except.ok ⟨tid0, "Fix login bug", none, TicketStatus.OPEN, Priority.MEDIUM, P1, none⟩) ∧
    ((⟨some "Fix login bug", none, none, none, some P1, none⟩ : TicketInput).assignee_id = none →
      (⟨tid0, "Fix login bug", none, TicketStatus.OPEN, Priority.MEDIUM, P1, none⟩ : Ticket).assignee_id
        = none) ∧
    (validUUID "99999999-9999-4999-8999-999999999999" = true) ∧
    (create tid0 ⟨some "Fix login bug", none, none, none, some P1,
        some "99999999-9999-4999-8999-999999999999"⟩ =
      Except.ok ⟨tid0, "Fix login bug", none, TicketStatus.OPEN, Priority.MEDIUM, P1,
        some "99999999-9999-4999-8999-999999999999"⟩) :=
  ⟨rfl,
   C6_assignee_optional_unchecked.1 tid0 _ _ rfl,
   by decide,
   C6_assignee_optional_unchecked.2 "99999999-9999-4999-8999-999999999999" (by decide)⟩

/-- C7: the Ticket model declares no foreign key on any column, and with
no declared foreign key a relational engine performs no cascading delete
on the tickets table: deleting any row of any external table leaves
every ticket row unchanged. -/
theorem C7_no_fk_no_cascade :
    ticketColumns.all (fun c => c.foreignKey == none) = true ∧
    ∀ (table deletedId : String) (rows : List Ticket),
      cascadeOnExternalDelete ticketForeignKeys table deletedId rows = rows := by
  constructor
  · rfl
  · intro table deletedId rows
    unfold cascadeOnExternalDelete ticketForeignKeys
    induction rows with
    | nil => rfl
    | cons a l ih => simp_all [List.filter]

/-- C8: the Ticket model declares an index on each of the columns title,
status, priority, project_id and assignee_id. -/
theorem C8_declared_indexes :
    colIndexed "title" = true ∧ colIndexed "status" = true ∧
    colIndexed "priority" = true ∧ colIndexed "project_id" = true ∧
    colIndexed "assignee_id" = true :=
  ⟨rfl, rfl, rfl, rfl, rfl⟩

/-- C9: the debug string of a ticket is exactly the fixed template
filled with the id and the title, so it depends on no other field and
two tickets agreeing on id and title have identical debug strings. -/
theorem C9_reprString_shape (t1 t2 : Ticket)
    (hid : t1.id = t2.id) (ht : t1.title = t2.title) :
    Ticket.reprString t1 = "<Ticket(id=" ++ t1.id ++ ", title=" ++ t1.title ++ ")>" ∧
    Ticket.reprString t1 = Ticket.reprString t2 := by
  constructor
  · rfl
  · unfold Ticket.reprString
    rw [hid, ht]

/-- Witness for C9 at two concrete tickets agreeing on id and title but
differing in description, status, priority and assignee. -/
theorem C9_reprString_shape_witness :
    ((⟨tid0, "Fix login bug", none, TicketStatus.OPEN, Priority.MEDIUM, P1, none⟩ : Ticket).id =
      (⟨tid0, "Fix login bug", some "d", TicketStatus.DONE, Priority.HIGH, P1, some P1⟩ : Ticket).id) ∧
    ((⟨tid0, "Fix login bug", none, TicketStatus.OPEN, Priority.MEDIUM, P1, none⟩ : Ticket).title =
      (⟨tid0, "Fix login bug", some "d", TicketStatus.DONE, Priority.HIGH, P1, some P1⟩ : Ticket).title) ∧
    (Ticket.reprString ⟨tid0, "Fix login bug", none, TicketStatus.OPEN, Priority.MEDIUM, P1, none⟩ =
      "<Ticket(id=" ++ (⟨tid0, "Fix login bug", none, TicketStatus.OPEN, Priority.MEDIUM, P1, none⟩ : Ticket).id ++
        ", title=" ++ (⟨tid0, "Fix login bug", none, TicketStatus.OPEN, Priority.MEDIUM, P1, none⟩ : Ticket).title ++ ")>" ∧
     Ticket.reprString ⟨tid0, "Fix login bug", none, TicketStatus.OPEN, Priority.MEDIUM, P1, none⟩ =
      Ticket.reprString ⟨tid0, "Fix login bug", some "d", TicketStatus.DONE, Priority.HIGH, P1, some P1⟩) :=
  ⟨rfl, rfl,
   C9_reprString_shape
     ⟨tid0, "Fix login bug", none, TicketStatus.OPEN, Priority.MEDIUM, P1, none⟩
     ⟨tid0, "Fix login bug", some "d", TicketStatus.DONE, Priority.HIGH, P1, some P1⟩ rfl rfl⟩

/-- C10: the two uuid-typed columns reject, on create and on update, any
supplied value that is not a syntactically valid UUID, even though no
existence check is ever made. -/
theorem C10_uuid_syntax_checked :
    (∀ (id : String) (inp : TicketInput) (s : String),
        inp.project_id = some s → validUUID s = false →
        ∃ e, create id inp = Except.error e) ∧
    (∀ (id : String) (inp : TicketInput) (s : String),
        inp.assignee_id = some s → validUUID s = false →
        ∃ e, create id inp = Except.error e) ∧
    (∀ (t : Ticket) (inp : TicketInput) (s : String),
        inp.project_id = some s → validUUID s = false →
        ∃ e, update t inp = Except.error e) ∧
    (∀ (t : Ticket) (inp : TicketInput) (s : String),
        inp.assignee_id = some s → validUUID s = false →
        ∃ e, update t inp = Except.error e) := by
  refine ⟨?_, ?_, ?_, ?_⟩
  · intro id inp s hp hv
    apply create_fails_of_check
    right; right; right; left
    refine ⟨⟨"project_id", "invalid input syntax for type uuid"⟩, ?_⟩
    rw [hp]
    show checkUUIDVal "project_id" s = _
    unfold checkUUIDVal
    rw [if_neg (by simp [hv])]
  · intro id inp s ha hv
    apply create_fails_of_check
    right; right; right; right
    refine ⟨⟨"assignee_id", "invalid input syntax for type uuid"⟩, ?_⟩
    rw [ha]
    show (match checkUUIDVal "assignee_id" s with
          | Except.ok w => Except.ok (some w)
          | Except.error e => Except.error e) = _
    unfold checkUUIDVal
    rw [if_neg (by simp [hv])]
  · intro t inp s hp hv
    apply update_fails_of_check
    right; right; right; left
    refine ⟨⟨"project_id", "invalid input syntax for type uuid"⟩, ?_⟩
    rw [hp]
    show checkUUIDVal "project_id" s = _
    unfold checkUUIDVal
    rw [if_neg (by simp [hv])]
  · intro t inp s ha hv
    apply update_fails_of_check
    right; right; right; right
    refine ⟨⟨"assignee_id", "invalid input syntax for type uuid"⟩, ?_⟩
    rw [ha]
    show (match checkUUIDVal "assignee_id" s with
          | Except.ok w => Except.ok (some w)
          | Except.error e => Except.error e) = _
    unfold checkUUIDVal
    rw [if_neg (by simp [hv])]

/-- Witness for C10: the value not-a-uuid is rejected for both columns
on create and on update. -/
theorem C10_uuid_syntax_checked_witness :
    (validUUID "not-a-uuid" = false) ∧
    (∃ e, create tid0 ⟨some "Fix login bug", none, none, none, some "not-a-uuid", none⟩ =
      Except.error e) ∧
    (∃ e, create tid0 ⟨some "Fix login bug", none, none, none, some P1, some "not-a-uuid"⟩ =
      Except.error e) ∧
    (∃ e, update ⟨tid0, "old", none, TicketStatus.OPEN, Priority.MEDIUM, P1, none⟩
        ⟨none, none, none, none, some "not-a-uuid", none⟩ = Except.error e) ∧
    (∃ e, update ⟨tid0, "old", none, TicketStatus.OPEN, Priority.MEDIUM, P1, none⟩
        ⟨none, none, none, none, none, some "not-a-uuid"⟩ = Except.error e) :=
  ⟨by decide,
   C10_uuid_syntax_checked.1 tid0 _ _ rfl (by decide),
   C10_uuid_syntax_checked.2.1 tid0 _ _ rfl (by decide),
   C10_uuid_syntax_checked.2.2.1 _ _ _ rfl (by decide),
   C10_uuid_syntax_checked.2.2.2 _ _ _ rfl (by decide)⟩

end WeAlist
